import Mathlib

/-!
Shallow embedding of the pdf-chat backend (main.py, pdf2img.py, visionOcr.py).

External effects (database, object storage, OCR service, generative models)
are modelled as explicit outcome values supplied through world records; the
Lean functions mirror the Python control flow over those outcomes.  Python
strings are Lean String values; Python byte sizes are Nat.
-/

/-! ## Decimal digits and the Python percent-03d formatting used in pdf2img.py -/

/-- Character for a decimal digit value, as Python decimal formatting produces it. -/
def digitChar (d : Nat) : Char := Char.ofNat (48 + d)

/-- Numeric value of a decimal digit character (code point minus 48). -/
def charToDigit (c : Char) : Nat := c.toNat - 48

/-- Numeric value of a big-endian run of decimal digit characters. -/
def digitsToNat (cs : List Char) : Nat := cs.foldl (fun a c => 10 * a + charToDigit c) 0

/-- Big-endian decimal digit characters of a positive number; fuel-structural so
that the kernel can evaluate it. -/
def decDigitsAux : Nat → Nat → List Char
  | _, 0 => []
  | 0, _ + 1 => []
  | fuel + 1, n + 1 => decDigitsAux fuel ((n + 1) / 10) ++ [digitChar ((n + 1) % 10)]

/-- Decimal digit characters of a natural number, as Python str(n) renders it. -/
def decimalDigits (n : Nat) : List Char :=
  if n = 0 then [digitChar 0] else decDigitsAux n n

/-- Python format spec 03d: the decimal digits, left padded with zeros to width 3.
Embeds the f-string page_{page_num+1:03d} of pdf2img.py line 50. -/
def pad3 (n : Nat) : String :=
  String.mk (List.replicate (3 - (decimalDigits n).length) '0' ++ decimalDigits n)

/-! ## Python string primitives used by main.py -/

/-- Python str.lower, mapping each character (filenames here are ASCII). -/
def pyLower (s : String) : String := String.mk (s.data.map Char.toLower)

/-- Bool test that the first list is a prefix of the second. -/
def hasPrefixChars : List Char → List Char → Bool
  | [], _ => true
  | _ :: _, [] => false
  | a :: as, b :: bs => a = b && hasPrefixChars as bs

/-- Bool test that the first list occurs as a contiguous run inside the second. -/
def hasSubstrChars (needle : List Char) : List Char → Bool
  | [] => hasPrefixChars needle []
  | c :: cs => hasPrefixChars needle (c :: cs) || hasSubstrChars needle cs

/-- file.filename.lower().endswith(".pdf") from main.py line 186. -/
def pyEndsWithPdf (s : String) : Bool :=
  hasPrefixChars ".pdf".data.reverse (pyLower s).data.reverse

/-- Python operator in for strings: substring containment. -/
def pyContains (hay needle : String) : Bool := hasSubstrChars needle.data hay.data

/-- os.path.basename for posix paths: the characters after the last slash. -/
def basename (p : String) : String :=
  String.mk ((p.data.reverse.takeWhile (fun c => c != '/')).reverse)

/-- First component of os.path.splitext: everything before the last dot, the whole
name when there is no dot.  Faithful for the non-leading-dot names this pipeline
produces. -/
def splitextStem (s : String) : String :=
  if s.data.contains '.' then
    String.mk (((s.data.reverse.dropWhile (fun c => c != '.')).drop 1).reverse)
  else s

/-- Python str.split with a one-character separator; empty fields are kept. -/
def splitOnChar (sep : Char) : List Char → List (List Char)
  | [] => [[]]
  | c :: cs =>
    match splitOnChar sep cs with
    | [] => [[]]
    | g :: gs => if c = sep then [] :: g :: gs else (c :: g) :: gs

/-- Python int() restricted to the nonnegative digit-run literals this pipeline
produces; other accepted Python forms (signs, surrounding whitespace) do not arise
from the names parsed here.  none models a ValueError. -/
def pyInt? (s : String) : Option Nat :=
  if s.data ≠ [] ∧ s.data.all Char.isDigit then some (digitsToNat s.data) else none

/-- txt_name built at main.py line 334:
os.path.splitext(os.path.basename(img_path))[0] + "_text.txt". -/
def txtNameOf (imgPath : String) : String := splitextStem (basename imgPath) ++ "_text.txt"

/-- page_number parsed at main.py lines 366 to 369: int of field 1 of the
underscore-split of txt_name, with IndexError and ValueError mapped to None. -/
def parsePageNumber (txtName : String) : Option Nat :=
  match splitOnChar '_' txtName.data with
  | _ :: second :: _ => pyInt? (String.mk second)
  | _ => none

/-! ## pdf2img.py -/

/-- Outcome of the PyMuPDF try block in convert_pdf_to_images: either the document
opens and every page renders, giving the page count, or some step of opening or
rendering raises. -/
inductive PdfRenderOutcome where
  | pages (n : Nat)
  | fault (msg : String)
deriving DecidableEq

/-- Image path for 1-based page n: os.path.join(output_folder, page_{n:03d}.jpg)
with the posix separator (pdf2img.py line 50). -/
def pageFilename (folder : String) (n : Nat) : String :=
  folder ++ "/page_" ++ pad3 n ++ ".jpg"

/-- convert_pdf_to_images (pdf2img.py lines 33 to 64): renders page i of the open
document to page_{i+1:03d}.jpg inside output_folder for i in range(page_count) and
returns the paths in page order; any exception inside the try block is caught,
printed, and an empty list is returned.  The dpi argument (default 300) only
affects raster resolution, never the artifact set, so it is not carried here. -/
def convert_pdf_to_images (output_folder : String) (doc : PdfRenderOutcome) : List String :=
  match doc with
  | .pages n => (List.range n).map (fun i => pageFilename output_folder (i + 1))
  | .fault _ => []

/-- Natural-sort key of a page image path: the numeric value of the digit run that
follows the page_ marker.  This renders the specification notion of natural sort
order; the code itself emits pages already in order. -/
def naturalSortKey (folder : String) (s : String) : Nat :=
  let t := s.data.drop (folder.length + 6)
  digitsToNat (t.take (t.length - 4))

/-! ## visionOcr.py -/

/-- Outcome of one extract_text_from_image body: the text_annotations list of the
Vision API response, or any exception raised while reading the image file or
calling the API. -/
inductive OcrOutcome where
  | annotations (texts : List String)
  | fault (msg : String)
deriving DecidableEq

/-- ImageTextExtractor.extract_text_from_image (visionOcr.py lines 36 to 68): the
description of the first annotation when one exists, the sentinel string when the
annotation list is empty, and an error-describing string when anything raises. -/
def extract_text_from_image : OcrOutcome → String
  | .annotations (t :: _) => t
  | .annotations [] => "No text found in image"
  | .fault msg => "Error processing image: " ++ msg

/-! ## Retry loops of the per-page upload sub-steps (main.py lines 302 to 327 and 340 to 363) -/

/-- Outcome of one storage upload attempt: success, a returned result object whose
error attribute is truthy, or a raised exception. -/
inductive AttemptOutcome where
  | success
  | errResult (msg : String)
  | exc (msg : String)
deriving DecidableEq

/-- Observable behaviour of one retry loop run: whether the artifact was uploaded,
how many attempts ran, the backoff sleeps performed in seconds, and whether the
failed-after-max-retries log line fired. -/
structure RetryResult where
  uploaded : Bool
  attempts : Nat
  sleeps : List Nat
  exhaustedLog : Bool
deriving DecidableEq

/-- The for-attempt-in-range loop shared by the image upload (main.py lines 303 to
327) and the text upload (lines 341 to 363): success appends and breaks; an
error-valued result retries immediately while attempts remain and just falls out
of the loop on the last attempt; an exception sleeps 2 to the attempt power
seconds while attempts remain and logs exhaustion on the last attempt. -/
def retryAttempts (f : Nat → AttemptOutcome) : List Nat → RetryResult
  | [] => { uploaded := false, attempts := 0, sleeps := [], exhaustedLog := false }
  | a :: rest =>
    match f a with
    | .success => { uploaded := true, attempts := 1, sleeps := [], exhaustedLog := false }
    | .errResult _ =>
      if rest.isEmpty then
        { uploaded := false, attempts := 1, sleeps := [], exhaustedLog := false }
      else
        let r := retryAttempts f rest
        { uploaded := r.uploaded, attempts := r.attempts + 1, sleeps := r.sleeps,
          exhaustedLog := r.exhaustedLog }
    | .exc _ =>
      if rest.isEmpty then
        { uploaded := false, attempts := 1, sleeps := [], exhaustedLog := true }
      else
        let r := retryAttempts f rest
        { uploaded := r.uploaded, attempts := r.attempts + 1, sleeps := 2 ^ a :: r.sleeps,
          exhaustedLog := r.exhaustedLog }

/-- max_retries = 3: the loop runs over attempts 0, 1, 2 (range(max_retries)). -/
def uploadRetry (f : Nat → AttemptOutcome) : RetryResult := retryAttempts f [0, 1, 2]

/-- One embeddings table row as built at main.py lines 373 to 378. -/
structure EmbeddingRecord where
  pdf_id : String
  page_number : Option Nat
  text : String
  embedding : List Int
deriving DecidableEq

/-- Step 2 of upload_pdf (main.py lines 295 to 327): upload each page image with
retry; returns the storage paths of the successfully uploaded images in page
order.  The index i tracks the loop position and selects the attempt oracle. -/
def processImagesAux (f : Nat → Nat → AttemptOutcome) (pdfId : String) :
    Nat → List String → List String
  | _, [] => []
  | i, p :: rest =>
    let r := uploadRetry (f i)
    let tail := processImagesAux f pdfId (i + 1) rest
    if r.uploaded then (pdfId ++ "/" ++ basename p) :: tail else tail

/-- Step 3 of upload_pdf (main.py lines 329 to 380): per page image, recognize
text, upload the text artifact with retry, parse the page number out of the text
filename, and build the embeddings row handed to the insert call (that call sits
in a try whose except only logs, so the attempted rows are the observable).
Returns the uploaded text storage paths and the attempted rows, in page order. -/
def processTextsAux (g : Nat → Nat → AttemptOutcome) (ocr : Nat → OcrOutcome)
    (encode : String → List Int) (pdfId : String) :
    Nat → List String → List String × List EmbeddingRecord
  | _, [] => ([], [])
  | i, p :: rest =>
    let text := extract_text_from_image (ocr i)
    let txtName := txtNameOf p
    let r := uploadRetry (g i)
    let record : EmbeddingRecord :=
      { pdf_id := pdfId, page_number := parsePageNumber txtName, text := text,
        embedding := encode text }
    let tail := processTextsAux g ocr encode pdfId (i + 1) rest
    ((if r.uploaded then (pdfId ++ "/" ++ txtName) :: tail.1 else tail.1),
      record :: tail.2)

/-! ## ask_gemini (main.py lines 158 to 182) -/

/-- Outcome of one generate_content call: the response text, a ResourceExhausted
quota error, or any other exception. -/
inductive GenOutcome where
  | ok (text : String)
  | resourceExhausted (msg : String)
  | otherExc (msg : String)
deriving DecidableEq

/-- Outcomes of the external generative calls available to one ask_gemini run: the
call on the requested model and the call on the fallback Flash-Lite model. -/
structure GeminiWorld where
  primaryOutcome : GenOutcome
  fallbackOutcome : GenOutcome
deriving DecidableEq

/-- Python str.strip applied to response.text: whitespace removed from both
ends. -/
def pyStrip (s : String) : String :=
  String.mk ((s.data.dropWhile Char.isWhitespace).reverse.dropWhile Char.isWhitespace).reverse

/-- ask_gemini (main.py lines 158 to 182), the outcomes of the external
generate_content calls supplied by the world.  The prompt built from the question
and the context feeds those external calls only and never alters control flow, so
it is absorbed into the world outcomes. -/
def ask_gemini (gemini_model : String) (w : GeminiWorld) : String :=
  match w.primaryOutcome with
  | .ok t => pyStrip t
  | .resourceExhausted _ =>
    if gemini_model ≠ "models/gemini-2.5-flash-lite" then
      match w.fallbackOutcome with
      | .ok t => pyStrip t ++ "\n\n(Note: Fallback to Flash-Lite due to quota limits.)"
      | .resourceExhausted _ =>
        "Sorry, the AI service is currently rate-limited. Please try again later. (Both Flash and Flash-Lite quota exceeded.)"
      | .otherExc _ =>
        "Sorry, the AI service is currently rate-limited. Please try again later. (Both Flash and Flash-Lite quota exceeded.)"
    else
      "Sorry, the AI service is currently rate-limited. Please try again later. (Flash-Lite quota exceeded.)"
  | .otherExc m => "Sorry, an error occurred with the AI service: " ++ m

/-- The models on which generate_content runs during one ask_gemini call, in
order; mirrors the control flow of ask_gemini. -/
def ask_gemini_models (gemini_model : String) (w : GeminiWorld) : List String :=
  match w.primaryOutcome with
  | .resourceExhausted _ =>
    if gemini_model ≠ "models/gemini-2.5-flash-lite" then
      [gemini_model, "models/gemini-2.5-flash-lite"]
    else [gemini_model]
  | _ => [gemini_model]

/-! ## upload_pdf (main.py lines 184 to 395) -/

/-- Outcome of the original-PDF storage upload at main.py lines 228 to 233:
success; a returned result object with a truthy error attribute (the handler
removes the temp file and raises an HTTPException inside the try block at lines
232 to 233; the generic except clause at line 250 then calls os.remove again on
the already-removed file, so a FileNotFoundError escapes the handler and the
framework answers a generic 500); a raised StorageApiError carrying its str
rendering; or any other raised exception. -/
inductive StorageUploadOutcome where
  | ok
  | errResult (msg : String)
  | apiError (msg : String)
  | exc (msg : String)
deriving DecidableEq

/-- The structured 413 body of main.py lines 219 to 225 and 239 to 245. -/
structure SizeErrorDetail where
  error : String
  file_size_mb : String
  supabase_free_tier_limit : String
  message : String
  solution : String
deriving DecidableEq

/-- Detail payload of an HTTPException raised by upload_pdf: a plain string, the
structured oversize body, or the structured verification-failure body of main.py
lines 281 to 288. -/
inductive Detail where
  | text (s : String)
  | sizeError (d : SizeErrorDetail)
  | verifyError (error message file : String)
deriving DecidableEq

/-- Response of one upload_pdf run: the 200 JSON of main.py lines 387 to 395
(its constant message field and the name and date echo fields carry no claim
content and are omitted), or an HTTPException status and detail. -/
inductive Response where
  | ok (pdf_id storage_path : String) (uploaded_images uploaded_texts : List String)
  | httpError (status : Nat) (detail : Detail)
deriving DecidableEq

/-- HTTP status of a response; FastAPI serves a plain return as 200. -/
def statusOf : Response → Nat
  | .ok _ _ _ _ => 200
  | .httpError s _ => s

/-- External-world outcomes consumed by one upload_pdf run.  The attempt oracles
take the page loop index and the attempt number. -/
structure UploadWorld where
  filename : String
  fileSizeBytes : Nat
  dbInsert : Except String String
  storageUpload : StorageUploadOutcome
  dbUpdate : Except String Unit
  download : Except String Unit
  dbDelete : Except String Unit
  rasterize : PdfRenderOutcome
  imgAttempt : Nat → Nat → AttemptOutcome
  txtAttempt : Nat → Nat → AttemptOutcome
  ocr : Nat → OcrOutcome
  encode : String → List Int

/-- Observable result of one upload_pdf run: the HTTP response, whether the pdfs
metadata row for this document still exists afterwards, whether the storage
upload of the original PDF was attempted, and the embeddings rows handed to the
insert call. -/
structure UploadResult where
  response : Response
  rowExists : Bool
  storageUploadAttempted : Bool
  insertedEmbeddings : List EmbeddingRecord
deriving DecidableEq

/-- Round num/den to the nearest integer, ties to even: the rounding that both
the float division by 1048576 (exact for byte counts below 2 to the 53) and the
Python format spec .1f perform. -/
def roundHalfEven (num den : Nat) : Nat :=
  let q := num / den
  let r := num % den
  if 2 * r < den then q
  else if den < 2 * r then q + 1
  else if q % 2 = 0 then q else q + 1

/-- Decimal rendering of a natural number, as Python str(n). -/
def natToString (n : Nat) : String := String.mk (decimalDigits n)

/-- The f-string fragment {file_size_mb:.1f}MB of main.py lines 221, 223, 241 and
243, computed from the byte count: file_size / (1024*1024) rounded to one decimal
place. -/
def formatSizeMb (bytes : Nat) : String :=
  let tenths := roundHalfEven (bytes * 10) (1024 * 1024)
  natToString (tenths / 10) ++ "." ++ natToString (tenths % 10) ++ "MB"

/-- The structured detail body shared by the two 413 raises (main.py lines 219 to
225 and 239 to 245); they differ only in the error field. -/
def mkSizeDetail (err : String) (bytes : Nat) : SizeErrorDetail :=
  { error := err
    file_size_mb := formatSizeMb bytes
    supabase_free_tier_limit := "50MB"
    message := "Your file (" ++ formatSizeMb bytes ++
      ") exceeds the Supabase free tier limit of 50MB per file."
    solution := "Upgrade to Supabase Pro ($25/month) for 5GB file limits" }

/-- The substring tests of main.py line 236 deciding whether a raised
StorageApiError indicates an oversized payload. -/
def storageErrTooLarge (msg : String) : Bool :=
  pyContains msg "413" || pyContains (pyLower msg) "payload too large" ||
    pyContains (pyLower msg) "exceeded the maximum allowed size"

/-- Failure result: an HTTPException response, with no per-page work done. -/
def failResult (status : Nat) (d : Detail) (row attempted : Bool) : UploadResult :=
  { response := .httpError status d, rowExists := row,
    storageUploadAttempted := attempted, insertedEmbeddings := [] }

/-- upload_pdf (main.py lines 184 to 395) over the world of external outcomes.
Temp-file writes and removals are local side effects with no claim content and
are not tracked.  Stage order follows the source: extension check (line 186),
metadata insert (195 to 204), size check (210 to 226, where the float comparison
file_size_mb greater than 50 is exactly bytes greater than 50*1024*1024 because
division of a sub-2^53 integer by the power of two 1048576 is exact), storage
upload (228 to 252), storage-path update (254 to 259), verification download with
compensating delete (264 to 288), rasterization (290 to 293), per-page image
uploads (295 to 327), per-page text extraction, text uploads and embedding
inserts (329 to 380), and the 200 JSON (387 to 395). -/
def upload_pdf (w : UploadWorld) : UploadResult :=
  if pyEndsWithPdf w.filename then
    match w.dbInsert with
    | .error e => failResult 500 (.text ("Database error: " ++ e)) false false
    | .ok pdfId =>
      if w.fileSizeBytes > 50 * 1024 * 1024 then
        failResult 413
          (.sizeError (mkSizeDetail "File too large for Supabase free tier" w.fileSizeBytes))
          true false
      else
        match w.storageUpload with
        | .errResult _ =>
          failResult 500 (.text "Internal Server Error") true true
        | .apiError m =>
          if storageErrTooLarge m then
            failResult 413
              (.sizeError (mkSizeDetail "File too large for Supabase storage" w.fileSizeBytes))
              true true
          else
            failResult 500 (.text ("Storage error: " ++ m)) true true
        | .exc m => failResult 500 (.text ("PDF upload failed: " ++ m)) true true
        | .ok =>
          match w.dbUpdate with
          | .error e =>
            failResult 500 (.text ("Failed to update storage path: " ++ e)) true true
          | .ok _ =>
            match w.download with
            | .error e =>
              let row := match w.dbDelete with | .ok _ => false | .error _ => true
              failResult 500
                (.verifyError "PDF upload verification failed"
                  ("PDF was not uploaded successfully to storage. Error: " ++ e) w.filename)
                row true
            | .ok _ =>
              let imagePaths := convert_pdf_to_images ("images/" ++ pdfId) w.rasterize
              let uploadedImages := processImagesAux w.imgAttempt pdfId 0 imagePaths
              let texts := processTextsAux w.txtAttempt w.ocr w.encode pdfId 0 imagePaths
              { response := .ok pdfId (pdfId ++ "/" ++ w.filename) uploadedImages texts.1,
                rowExists := true, storageUploadAttempted := true,
                insertedEmbeddings := texts.2 }
  else failResult 400 (.text "Only PDF files are allowed.") false false

/-- Concrete world for the C6 witness: primary quota-exhausted, fallback
succeeds. -/
def quotaWorld : GeminiWorld :=
  { primaryOutcome := GenOutcome.resourceExhausted "429 quota",
    fallbackOutcome := GenOutcome.ok "The answer." }

/-- Concrete world for the C8 witness: Flash-Lite itself quota-exhausted. -/
def liteQuotaWorld : GeminiWorld :=
  { primaryOutcome := GenOutcome.resourceExhausted "429 quota",
    fallbackOutcome := GenOutcome.ok "unused" }

/-- A fully successful world for a one-page document, varied per scenario. -/
def baseWorld : UploadWorld :=
  { filename := "report.pdf"
    fileSizeBytes := 1048576
    dbInsert := Except.ok "41"
    storageUpload := StorageUploadOutcome.ok
    dbUpdate := Except.ok ()
    download := Except.ok ()
    dbDelete := Except.ok ()
    rasterize := PdfRenderOutcome.pages 1
    imgAttempt := fun _ _ => AttemptOutcome.success
    txtAttempt := fun _ _ => AttemptOutcome.success
    ocr := fun _ => OcrOutcome.annotations ["hello world"]
    encode := fun _ => [1] }

/-- Concrete oversized world for the C3 witness: one byte over the limit. -/
def oversizeWorld : UploadWorld :=
  { baseWorld with fileSizeBytes := 52428801 }

/-- Concrete oversized world for the C9 witness: 60 MB file. -/
def orphanRowWorld : UploadWorld :=
  { baseWorld with filename := "big.pdf", fileSizeBytes := 60 * 1024 * 1024 }

/-- Concrete world for the C1 counterexample: storage upload raises. -/
def storageFailWorld : UploadWorld :=
  { baseWorld with storageUpload := StorageUploadOutcome.exc "connection reset" }

/-- Concrete world for the C1 witness: verification download fails, delete
succeeds. -/
def verifyFailWorld : UploadWorld :=
  { baseWorld with download := Except.error "object not found" }

/-- Concrete world for the C1 witness apiError case: a raised StorageApiError
whose message mentions 413. -/
def apiError413World : UploadWorld :=
  { baseWorld with
      storageUpload := StorageUploadOutcome.apiError "StorageApiError: 413 Payload Too Large" }

/-- Concrete world for the C1 witness errResult case: an error-valued upload
result. -/
def errResultWorld : UploadWorld :=
  { baseWorld with storageUpload := StorageUploadOutcome.errResult "Duplicate object" }

/-- Concrete world for the C2 counterexample: rasterization faults. -/
def rasterFailWorld : UploadWorld :=
  { baseWorld with rasterize := PdfRenderOutcome.fault "cannot open document" }

/-! ## Theorems -/

theorem charToDigit_digitChar {d : Nat} (h : d < 10) : charToDigit (digitChar d) = d := by
  interval_cases d <;> decide

theorem isDigit_digitChar {d : Nat} (h : d < 10) : (digitChar d).isDigit = true := by
  interval_cases d <;> decide

theorem decDigitsAux_val : ∀ fuel n, n ≤ fuel → digitsToNat (decDigitsAux fuel n) = n := by
  intro fuel
  induction fuel with
  | zero =>
    intro n hn
    interval_cases n
    rfl
  | succ f ih =>
    intro n hn
    match n with
    | 0 => rfl
    | k + 1 =>
      have hdiv : (k + 1) / 10 ≤ f := by
        have := Nat.div_lt_self (Nat.succ_pos k) (by norm_num : (1:Nat) < 10)
        omega
      show digitsToNat (decDigitsAux f ((k + 1) / 10) ++ [digitChar ((k + 1) % 10)]) = k + 1
      rw [digitsToNat, List.foldl_append]
      have h10 : (k + 1) % 10 < 10 := Nat.mod_lt _ (by norm_num)
      have hc : charToDigit (digitChar ((k + 1) % 10)) = (k + 1) % 10 := charToDigit_digitChar h10
      simp only [List.foldl_cons, List.foldl_nil]
      rw [← digitsToNat, ih _ hdiv, hc]
      omega

theorem decDigitsAux_digits : ∀ fuel n c, c ∈ decDigitsAux fuel n → c.isDigit = true := by
  intro fuel
  induction fuel with
  | zero =>
    intro n c hc
    match n with
    | 0 => simp [decDigitsAux] at hc
    | _ + 1 => simp [decDigitsAux] at hc
  | succ f ih =>
    intro n c hc
    match n with
    | 0 => simp [decDigitsAux] at hc
    | k + 1 =>
      simp only [decDigitsAux, List.mem_append, List.mem_singleton] at hc
      rcases hc with hc | hc
      · exact ih _ _ hc
      · subst hc
        exact isDigit_digitChar (Nat.mod_lt _ (by norm_num))

theorem decimalDigits_digits {n : Nat} {c : Char} (hc : c ∈ decimalDigits n) :
    c.isDigit = true := by
  by_cases h : n = 0
  · subst h
    have hd : decimalDigits 0 = [digitChar 0] := rfl
    rw [hd, List.mem_singleton] at hc
    subst hc
    decide
  · rw [decimalDigits, if_neg h] at hc
    exact decDigitsAux_digits n n c hc

theorem decimalDigits_ne_nil (n : Nat) : decimalDigits n ≠ [] := by
  by_cases h : n = 0
  · subst h; decide
  · rw [decimalDigits, if_neg h]
    match n, h with
    | k + 1, _ =>
      show decDigitsAux (k + 1) (k + 1) ≠ []
      simp [decDigitsAux]

theorem digitsToNat_decimalDigits (n : Nat) : digitsToNat (decimalDigits n) = n := by
  by_cases h : n = 0
  · subst h; decide
  · rw [decimalDigits, if_neg h]
    exact decDigitsAux_val n n le_rfl

theorem digitsToNat_replicate_zero_append (k : Nat) (cs : List Char) :
    digitsToNat (List.replicate k '0' ++ cs) = digitsToNat cs := by
  induction k with
  | zero => rfl
  | succ m ih =>
    show digitsToNat ('0' :: (List.replicate m '0' ++ cs)) = digitsToNat cs
    rw [digitsToNat, List.foldl_cons]
    show digitsToNat (List.replicate m '0' ++ cs) = digitsToNat cs
    exact ih

theorem pad3_data (n : Nat) :
    (pad3 n).data = List.replicate (3 - (decimalDigits n).length) '0' ++ decimalDigits n := rfl

theorem digitsToNat_pad3 (n : Nat) : digitsToNat (pad3 n).data = n := by
  rw [pad3_data, digitsToNat_replicate_zero_append, digitsToNat_decimalDigits]

theorem pad3_all_digits {n : Nat} {c : Char} (hc : c ∈ (pad3 n).data) : c.isDigit = true := by
  rw [pad3_data, List.mem_append] at hc
  rcases hc with hc | hc
  · rw [List.eq_of_mem_replicate hc]; decide
  · exact decimalDigits_digits hc

theorem pad3_ne_nil (n : Nat) : (pad3 n).data ≠ [] := by
  rw [pad3_data]
  intro h
  exact decimalDigits_ne_nil n (List.append_eq_nil.mp h).2

theorem isDigit_ne_special {c : Char} (h : c.isDigit = true) :
    c ≠ '/' ∧ c ≠ '.' ∧ c ≠ '_' := by
  refine ⟨?_, ?_, ?_⟩ <;> (intro he; subst he; exact absurd h (by decide))

theorem takeWhile_append_all {p : Char → Bool} :
    ∀ (as : List Char) {b : Char} (bs : List Char),
      (∀ c ∈ as, p c = true) → p b = false → (as ++ b :: bs).takeWhile p = as := by
  intro as
  induction as with
  | nil =>
    intro b bs _ hb
    simp [List.takeWhile, hb]
  | cons a as ih =>
    intro b bs ha hb
    have ha1 : p a = true := ha a (List.mem_cons_self a as)
    show ((a :: (as ++ b :: bs)).takeWhile p) = a :: as
    rw [List.takeWhile_cons, ha1]
    simp only [if_true]
    rw [ih bs (fun c hc => ha c (List.mem_cons_of_mem a hc)) hb]

theorem dropWhile_append_all {p : Char → Bool} :
    ∀ (as : List Char) {b : Char} (bs : List Char),
      (∀ c ∈ as, p c = true) → p b = false → (as ++ b :: bs).dropWhile p = b :: bs := by
  intro as
  induction as with
  | nil =>
    intro b bs _ hb
    simp [List.dropWhile, hb]
  | cons a as ih =>
    intro b bs ha hb
    have ha1 : p a = true := ha a (List.mem_cons_self a as)
    show ((a :: (as ++ b :: bs)).dropWhile p) = b :: bs
    rw [List.dropWhile_cons, ha1]
    simp only [if_true]
    exact ih bs (fun c hc => ha c (List.mem_cons_of_mem a hc)) hb

theorem splitOnChar_ne_nil (sep : Char) : ∀ cs, splitOnChar sep cs ≠ [] := by
  intro cs
  induction cs with
  | nil => simp [splitOnChar]
  | cons c cs ih =>
    rw [splitOnChar]
    cases h : splitOnChar sep cs with
    | nil => simp
    | cons g gs =>
      by_cases hc : c = sep <;> simp [hc]

theorem splitOnChar_no_sep (sep : Char) :
    ∀ cs, (∀ c ∈ cs, c ≠ sep) → splitOnChar sep cs = [cs] := by
  intro cs
  induction cs with
  | nil => intro _; rfl
  | cons c cs ih =>
    intro h
    rw [splitOnChar, ih (fun x hx => h x (List.mem_cons_of_mem c hx))]
    simp [h c (List.mem_cons_self c cs)]

theorem splitOnChar_append (sep : Char) :
    ∀ xs ys, (∀ c ∈ xs, c ≠ sep) →
      splitOnChar sep (xs ++ sep :: ys) = xs :: splitOnChar sep ys := by
  intro xs
  induction xs with
  | nil =>
    intro ys _
    show splitOnChar sep (sep :: ys) = [] :: splitOnChar sep ys
    rw [splitOnChar]
    cases h : splitOnChar sep ys with
    | nil => exact absurd h (splitOnChar_ne_nil sep ys)
    | cons g gs => simp
  | cons x xs ih =>
    intro ys h
    show splitOnChar sep (x :: (xs ++ sep :: ys)) = (x :: xs) :: splitOnChar sep ys
    rw [splitOnChar, ih ys (fun c hc => h c (List.mem_cons_of_mem x hc))]
    simp [h x (List.mem_cons_self x xs)]

theorem basename_append (xs zs : List Char) (h : ∀ c ∈ zs, c ≠ '/') :
    basename (String.mk (xs ++ '/' :: zs)) = String.mk zs := by
  rw [basename]
  have hdata : (String.mk (xs ++ '/' :: zs)).data = xs ++ '/' :: zs := rfl
  rw [hdata, List.reverse_append, List.reverse_cons, List.append_assoc,
    List.singleton_append]
  rw [takeWhile_append_all zs.reverse xs.reverse
    (fun c hc => by
      have : c ∈ zs := List.mem_reverse.mp hc
      simpa using h c this)
    (by decide)]
  rw [List.reverse_reverse]

theorem splitextStem_append (as bs : List Char) (h : ∀ c ∈ bs, c ≠ '.') :
    splitextStem (String.mk (as ++ '.' :: bs)) = String.mk as := by
  rw [splitextStem]
  have hdata : (String.mk (as ++ '.' :: bs)).data = as ++ '.' :: bs := rfl
  have hmem : ('.' : Char) ∈ as ++ '.' :: bs := by simp
  rw [hdata, if_pos (by
    simp only [List.contains_iff_exists_mem_beq]
    exact ⟨'.', hmem, rfl⟩)]
  rw [List.reverse_append, List.reverse_cons, List.append_assoc, List.singleton_append]
  rw [dropWhile_append_all bs.reverse as.reverse
    (fun c hc => by
      have : c ∈ bs := List.mem_reverse.mp hc
      simpa using h c this)
    (by decide)]
  rw [List.drop_one, List.tail_cons, List.reverse_reverse]

theorem pageFilename_data (folder : String) (m : Nat) :
    (pageFilename folder m).data =
      (folder.data ++ "/page_".data) ++ ((pad3 m).data ++ ".jpg".data) := by
  rw [pageFilename, String.data_append, String.data_append, String.data_append,
    List.append_assoc]

theorem naturalSortKey_pageFilename (folder : String) (m : Nat) :
    naturalSortKey folder (pageFilename folder m) = m := by
  simp only [naturalSortKey, pageFilename_data]
  have hlen : folder.length + 6 = (folder.data ++ "/page_".data).length := by
    simp [List.length_append]
  rw [hlen, List.drop_left]
  have hl : ((pad3 m).data ++ ".jpg".data).length - 4 = (pad3 m).data.length := by
    simp [List.length_append]
  rw [hl, List.take_left, digitsToNat_pad3]

theorem no_slash_in_page_tail (m : Nat) :
    ∀ c ∈ ("page_".data ++ ((pad3 m).data ++ ".jpg".data)), c ≠ '/' := by
  intro c hc
  rcases List.mem_append.mp hc with h | h
  · intro he; subst he; revert h; decide
  · rcases List.mem_append.mp h with h | h
    · exact (isDigit_ne_special (pad3_all_digits h)).1
    · intro he; subst he; revert h; decide

theorem basename_pageFilename (folder : String) (m : Nat) :
    basename (pageFilename folder m) =
      String.mk ("page_".data ++ ((pad3 m).data ++ ".jpg".data)) := by
  have hshape : pageFilename folder m =
      String.mk (folder.data ++ '/' :: ("page_".data ++ ((pad3 m).data ++ ".jpg".data))) := by
    apply String.ext
    rw [pageFilename_data]
    show (folder.data ++ "/page_".data) ++ ((pad3 m).data ++ ".jpg".data) = _
    simp [List.append_assoc]
  rw [hshape, basename_append _ _ (no_slash_in_page_tail m)]

theorem splitextStem_basename_pageFilename (folder : String) (m : Nat) :
    splitextStem (basename (pageFilename folder m)) =
      String.mk ("page_".data ++ (pad3 m).data) := by
  rw [basename_pageFilename]
  have hshape : ("page_".data ++ ((pad3 m).data ++ ".jpg".data)) =
      ("page_".data ++ (pad3 m).data) ++ '.' :: "jpg".data := by
    simp [List.append_assoc]
  rw [hshape, splitextStem_append _ _ (by intro c hc; intro he; subst he; revert hc; decide)]

theorem txtNameOf_pageFilename (folder : String) (m : Nat) :
    (txtNameOf (pageFilename folder m)).data =
      "page".data ++ '_' :: ((pad3 m).data ++ '_' :: "text.txt".data) := by
  rw [txtNameOf, splitextStem_basename_pageFilename, String.data_append]
  show ("page_".data ++ (pad3 m).data) ++ "_text.txt".data = _
  have h1 : ("page_".data : List Char) = "page".data ++ ['_'] := rfl
  have h2 : ("_text.txt".data : List Char) = '_' :: "text.txt".data := rfl
  rw [h1, h2]
  simp [List.append_assoc]

theorem parsePageNumber_txtName (folder : String) (m : Nat) :
    parsePageNumber (txtNameOf (pageFilename folder m)) = some m := by
  rw [parsePageNumber, txtNameOf_pageFilename]
  rw [splitOnChar_append '_' "page".data _ (by intro c hc; fin_cases hc <;> decide)]
  rw [splitOnChar_append '_' (pad3 m).data _
    (fun c hc => (isDigit_ne_special (pad3_all_digits hc)).2.2)]
  rw [splitOnChar_no_sep '_' "text.txt".data (by intro c hc; fin_cases hc <;> decide)]
  show pyInt? (String.mk (pad3 m).data) = some m
  rw [pyInt?]
  rw [if_pos ⟨pad3_ne_nil m, List.all_eq_true.mpr (fun c hc => pad3_all_digits hc)⟩]
  rw [digitsToNat_pad3]

/-! ## Claim theorems -/

/-- C4: for every image input the text recognizer never raises and always returns
a string: the extracted text of the first annotation, the exact sentinel string
when no text is detected, or an error-describing string on any recognition
fault. -/
theorem extract_text_total (o : OcrOutcome) :
    (∃ t rest, o = OcrOutcome.annotations (t :: rest) ∧ extract_text_from_image o = t) ∨
    (o = OcrOutcome.annotations [] ∧
      extract_text_from_image o = "No text found in image") ∨
    (∃ m, o = OcrOutcome.fault m ∧
      extract_text_from_image o = "Error processing image: " ++ m) := by
  cases o with
  | annotations ts =>
    cases ts with
    | nil => exact Or.inr (Or.inl ⟨rfl, rfl⟩)
    | cons t rest => exact Or.inl ⟨t, rest, rfl, rfl⟩
  | fault m => exact Or.inr (Or.inr ⟨m, rfl, rfl⟩)

/-- C5: for every valid PDF, rasterization produces exactly one image artifact
per page, numbered 1..N in 1-based page order, with filenames encoding a
zero-padded page number whose natural sort keys are strictly increasing, so
natural sort order of the filenames equals page order. -/
theorem convert_pdf_page_artifacts (folder : String) (n : Nat) :
    (convert_pdf_to_images folder (PdfRenderOutcome.pages n)).length = n ∧
    (∀ i, i < n → (convert_pdf_to_images folder (PdfRenderOutcome.pages n)).getD i "" =
      folder ++ "/page_" ++ pad3 (i + 1) ++ ".jpg") ∧
    (convert_pdf_to_images folder (PdfRenderOutcome.pages n)).map (naturalSortKey folder) =
      (List.range n).map (fun i => i + 1) ∧
    List.Pairwise (fun a b => a < b)
      ((convert_pdf_to_images folder (PdfRenderOutcome.pages n)).map (naturalSortKey folder)) := by
  have hmap : (convert_pdf_to_images folder (PdfRenderOutcome.pages n)).map (naturalSortKey folder) =
      (List.range n).map (fun i => i + 1) := by
    show ((List.range n).map (fun i => pageFilename folder (i + 1))).map (naturalSortKey folder) = _
    rw [List.map_map]
    exact List.map_congr_left (fun i _ => naturalSortKey_pageFilename folder (i + 1))
  refine ⟨?_, ?_, hmap, ?_⟩
  · simp [convert_pdf_to_images]
  · intro i hi
    show ((List.range n).map (fun j => pageFilename folder (j + 1))).getD i "" = _
    rw [List.getD_eq_getElem?_getD, List.getElem?_map, List.getElem?_range hi]
    rfl
  · rw [hmap]
    exact (List.pairwise_lt_range n).map (fun i => i + 1)
      (fun a b hab => Nat.add_lt_add_right hab 1)

/-- C5 witness at a concrete three-page document. -/
theorem convert_pdf_page_artifacts_wit :
    ((2 < 3) ∧ (convert_pdf_to_images "images/41" (PdfRenderOutcome.pages 3)).getD 2 "" =
      "images/41" ++ "/page_" ++ pad3 3 ++ ".jpg") ∧
    (convert_pdf_to_images "images/41" (PdfRenderOutcome.pages 3)).length = 3 :=
  ⟨⟨by decide, (convert_pdf_page_artifacts "images/41" 3).2.1 2 (by decide)⟩,
    (convert_pdf_page_artifacts "images/41" 3).1⟩

/-- C6: when the primary generative model raises a resource-exhaustion error,
ask_gemini falls back exactly once to the Flash-Lite model; a successful fallback
answer carries the visible fallback note, and a failing fallback of either kind
yields the user-facing apologetic rate-limit message instead of an exception. -/
theorem ask_gemini_quota_fallback (gemini_model : String) (w : GeminiWorld) (m : String)
    (hm : gemini_model ≠ "models/gemini-2.5-flash-lite")
    (hp : w.primaryOutcome = GenOutcome.resourceExhausted m) :
    ask_gemini_models gemini_model w = [gemini_model, "models/gemini-2.5-flash-lite"] ∧
    (∀ t, w.fallbackOutcome = GenOutcome.ok t →
      ask_gemini gemini_model w =
        pyStrip t ++ "\n\n(Note: Fallback to Flash-Lite due to quota limits.)") ∧
    (∀ m2, (w.fallbackOutcome = GenOutcome.resourceExhausted m2 ∨
        w.fallbackOutcome = GenOutcome.otherExc m2) →
      ask_gemini gemini_model w =
        "Sorry, the AI service is currently rate-limited. Please try again later. (Both Flash and Flash-Lite quota exceeded.)") := by
  refine ⟨?_, ?_, ?_⟩
  · simp [ask_gemini_models, hp, hm]
  · intro t hf
    simp [ask_gemini, hp, hf, hm]
  · intro m2 hf
    rcases hf with hf | hf <;> simp [ask_gemini, hp, hf, hm]

/-- C6 witness at a concrete quota-exhausted run. -/
theorem ask_gemini_quota_fallback_wit :
    ("models/gemini-2.5-flash" ≠ "models/gemini-2.5-flash-lite") ∧
    ask_gemini_models "models/gemini-2.5-flash" quotaWorld =
      ["models/gemini-2.5-flash", "models/gemini-2.5-flash-lite"] ∧
    ask_gemini "models/gemini-2.5-flash" quotaWorld =
      "The answer." ++ "\n\n(Note: Fallback to Flash-Lite due to quota limits.)" := by
  refine ⟨by decide,
    (ask_gemini_quota_fallback "models/gemini-2.5-flash" quotaWorld "429 quota"
      (by decide) rfl).1, ?_⟩
  have h := (ask_gemini_quota_fallback "models/gemini-2.5-flash" quotaWorld "429 quota"
    (by decide) rfl).2.1 "The answer." rfl
  rw [h]
  decide

/-- C8: when the requested model is already the fallback Flash-Lite model and it
raises a resource-exhaustion error, no fallback call is made and ask_gemini
immediately returns the apologetic message naming the Flash-Lite quota. -/
theorem ask_gemini_lite_no_fallback (w : GeminiWorld) (m : String)
    (hp : w.primaryOutcome = GenOutcome.resourceExhausted m) :
    ask_gemini "models/gemini-2.5-flash-lite" w =
      "Sorry, the AI service is currently rate-limited. Please try again later. (Flash-Lite quota exceeded.)" ∧
    ask_gemini_models "models/gemini-2.5-flash-lite" w =
      ["models/gemini-2.5-flash-lite"] := by
  constructor
  · simp [ask_gemini, hp]
  · simp [ask_gemini_models, hp]

/-- C8 witness at a concrete quota-exhausted Flash-Lite run. -/
theorem ask_gemini_lite_no_fallback_wit :
    ask_gemini "models/gemini-2.5-flash-lite" liteQuotaWorld =
      "Sorry, the AI service is currently rate-limited. Please try again later. (Flash-Lite quota exceeded.)" ∧
    ask_gemini_models "models/gemini-2.5-flash-lite" liteQuotaWorld =
      ["models/gemini-2.5-flash-lite"] :=
  ask_gemini_lite_no_fallback liteQuotaWorld "429 quota" rfl

theorem retryAttempts_attempts_le (f : Nat → AttemptOutcome) :
    ∀ l, (retryAttempts f l).attempts ≤ l.length := by
  intro l
  induction l with
  | nil => simp [retryAttempts]
  | cons a rest ih =>
    cases hfa : f a with
    | success => simp [retryAttempts, hfa]
    | errResult m =>
      by_cases hne : rest.isEmpty
      · simp [retryAttempts, hfa, hne]
      · simp only [retryAttempts, hfa, hne, Bool.false_eq_true, if_false, List.length_cons]
        omega
    | exc m =>
      by_cases hne : rest.isEmpty
      · simp [retryAttempts, hfa, hne]
      · simp only [retryAttempts, hfa, hne, Bool.false_eq_true, if_false, List.length_cons]
        omega

theorem processTextsAux_records (g : Nat → Nat → AttemptOutcome) (ocr : Nat → OcrOutcome)
    (encode : String → List Int) (pdfId : String) :
    ∀ (ps : List String) (i : Nat),
      (processTextsAux g ocr encode pdfId i ps).2.length = ps.length ∧
      ∀ j, j < ps.length →
        (processTextsAux g ocr encode pdfId i ps).2.getD j ⟨"", none, "", []⟩ =
          { pdf_id := pdfId,
            page_number := parsePageNumber (txtNameOf (ps.getD j "")),
            text := extract_text_from_image (ocr (i + j)),
            embedding := encode (extract_text_from_image (ocr (i + j))) } := by
  intro ps
  induction ps with
  | nil => intro i; exact ⟨rfl, fun j hj => absurd hj (by simp)⟩
  | cons p rest ih =>
    intro i
    constructor
    · show ((processTextsAux g ocr encode pdfId (i + 1) rest).2.length + 1) = rest.length + 1
      rw [(ih (i + 1)).1]
    · intro j hj
      cases j with
      | zero => rfl
      | succ j2 =>
        have hlt : j2 < rest.length := by simpa using hj
        have h1 : (processTextsAux g ocr encode pdfId i (p :: rest)).2.getD (j2 + 1)
              ⟨"", none, "", []⟩ =
            (processTextsAux g ocr encode pdfId (i + 1) rest).2.getD j2
              ⟨"", none, "", []⟩ := rfl
        rw [h1, (ih (i + 1)).2 j2 hlt]
        have hsh : i + 1 + j2 = i + (j2 + 1) := by omega
        rw [hsh]
        rfl

/-- C7 counterexample: when every attempt of a sub-step returns an error-valued
result, the loop runs all 3 attempts back to back with no backoff sleep at all
and no exhaustion log line, refuting that retries always use exponential
backoff starting at 1 second. -/
theorem retry_errresult_no_backoff :
    uploadRetry (fun _ => AttemptOutcome.errResult "Duplicate") =
      { uploaded := false, attempts := 3, sleeps := [], exhaustedLog := false } := by
  decide

/-- C7 (amended): each upload sub-step makes at most 3 attempts; when the
attempts raise exceptions the loop sleeps 2 to the attempt power seconds between
attempts (1 s then 2 s, exponential backoff starting at 1 second and doubling)
and logs the failure after the third attempt, leaving the artifact skipped,
while error-valued upload results retry immediately without backoff; and the
per-page loop always continues to the next page: one embeddings row is attempted
per page no matter the upload outcomes. -/
theorem retry_policy_and_batch_continuation (f : Nat → AttemptOutcome)
    (hexc : ∀ a, a < 3 → ∃ m, f a = AttemptOutcome.exc m) :
    (∀ f2 : Nat → AttemptOutcome, (uploadRetry f2).attempts ≤ 3) ∧
    uploadRetry f =
      { uploaded := false, attempts := 3, sleeps := [1, 2], exhaustedLog := true } ∧
    (∀ (g : Nat → Nat → AttemptOutcome) (ocr : Nat → OcrOutcome)
        (encode : String → List Int) (pdfId : String) (i : Nat) (ps : List String),
      (processTextsAux g ocr encode pdfId i ps).2.length = ps.length) := by
  refine ⟨fun f2 => retryAttempts_attempts_le f2 [0, 1, 2], ?_, ?_⟩
  · obtain ⟨m0, h0⟩ := hexc 0 (by omega)
    obtain ⟨m1, h1⟩ := hexc 1 (by omega)
    obtain ⟨m2, h2⟩ := hexc 2 (by omega)
    simp [uploadRetry, retryAttempts, h0, h1, h2]
  · intro g ocr encode pdfId i ps
    exact (processTextsAux_records g ocr encode pdfId ps i).1

/-- C7 witness at concrete all-exception outcomes and a two-page batch. -/
theorem retry_policy_and_batch_continuation_wit :
    uploadRetry (fun _ => AttemptOutcome.exc "timeout") =
      { uploaded := false, attempts := 3, sleeps := [1, 2], exhaustedLog := true } ∧
    (processTextsAux (fun _ _ => AttemptOutcome.exc "timeout")
      (fun _ => OcrOutcome.annotations []) (fun _ => []) "41" 0
      ["images/41/page_001.jpg", "images/41/page_002.jpg"]).2.length = 2 :=
  ⟨(retry_policy_and_batch_continuation (fun _ => AttemptOutcome.exc "timeout")
      (fun _ _ => ⟨"timeout", rfl⟩)).2.1,
    (retry_policy_and_batch_continuation (fun _ => AttemptOutcome.exc "timeout")
      (fun _ _ => ⟨"timeout", rfl⟩)).2.2 _ _ _ _ _ _⟩

theorem convert_getD (folder : String) (n i : Nat) (hi : i < n) :
    (convert_pdf_to_images folder (PdfRenderOutcome.pages n)).getD i "" =
      pageFilename folder (i + 1) := by
  show ((List.range n).map (fun j => pageFilename folder (j + 1))).getD i "" = _
  rw [List.getD_eq_getElem?_getD, List.getElem?_map, List.getElem?_range hi]
  rfl

theorem upload_pdf_success_stage (w : UploadWorld) (pid : String)
    (hname : pyEndsWithPdf w.filename = true)
    (hins : w.dbInsert = Except.ok pid)
    (hsize : ¬ w.fileSizeBytes > 50 * 1024 * 1024)
    (hst : w.storageUpload = StorageUploadOutcome.ok)
    (hupd : w.dbUpdate = Except.ok ())
    (hdl : w.download = Except.ok ()) :
    upload_pdf w =
      { response := Response.ok pid (pid ++ "/" ++ w.filename)
          (processImagesAux w.imgAttempt pid 0
            (convert_pdf_to_images ("images/" ++ pid) w.rasterize))
          (processTextsAux w.txtAttempt w.ocr w.encode pid 0
            (convert_pdf_to_images ("images/" ++ pid) w.rasterize)).1,
        rowExists := true, storageUploadAttempted := true,
        insertedEmbeddings := (processTextsAux w.txtAttempt w.ocr w.encode pid 0
          (convert_pdf_to_images ("images/" ++ pid) w.rasterize)).2 } := by
  simp [upload_pdf, hname, hins, hst, hupd, hdl, hsize]

/-- C3: an upload whose file exceeds the configured 50 MB limit is answered with
HTTP 413 carrying the structured body (file_size_mb, supabase_free_tier_limit,
remediation message and solution), and the storage upload stage is never
reached. -/
theorem oversize_upload_413 (w : UploadWorld) (pid : String)
    (hname : pyEndsWithPdf w.filename = true)
    (hins : w.dbInsert = Except.ok pid)
    (hsize : w.fileSizeBytes > 50 * 1024 * 1024) :
    (upload_pdf w).response = Response.httpError 413
      (Detail.sizeError (mkSizeDetail "File too large for Supabase free tier"
        w.fileSizeBytes)) ∧
    (upload_pdf w).storageUploadAttempted = false := by
  have h : upload_pdf w = failResult 413
      (Detail.sizeError (mkSizeDetail "File too large for Supabase free tier"
        w.fileSizeBytes)) true false := by
    simp [upload_pdf, hname, hins, hsize]
  rw [h]
  exact ⟨rfl, rfl⟩

/-- C3 witness at a concrete oversized upload. -/
theorem oversize_upload_413_wit :
    ((52428801 : Nat) > 50 * 1024 * 1024) ∧
    (upload_pdf oversizeWorld).response = Response.httpError 413
      (Detail.sizeError (mkSizeDetail "File too large for Supabase free tier" 52428801)) ∧
    (upload_pdf oversizeWorld).storageUploadAttempted = false :=
  ⟨by norm_num,
    (oversize_upload_413 oversizeWorld "41" (by decide) rfl (by decide)).1,
    (oversize_upload_413 oversizeWorld "41" (by decide) rfl (by decide)).2⟩

/-- C9: the oversize rejection happens after the metadata insert and performs no
compensating delete: a 413-rejected oversized upload leaves the metadata row in
place while no PDF bytes were ever stored. -/
theorem oversize_leaves_orphan_row (w : UploadWorld) (pid : String)
    (hname : pyEndsWithPdf w.filename = true)
    (hins : w.dbInsert = Except.ok pid)
    (hsize : w.fileSizeBytes > 50 * 1024 * 1024) :
    statusOf (upload_pdf w).response = 413 ∧
    (upload_pdf w).rowExists = true ∧
    (upload_pdf w).storageUploadAttempted = false := by
  have h : upload_pdf w = failResult 413
      (Detail.sizeError (mkSizeDetail "File too large for Supabase free tier"
        w.fileSizeBytes)) true false := by
    simp [upload_pdf, hname, hins, hsize]
  rw [h]
  exact ⟨rfl, rfl, rfl⟩

/-- C9 witness at a concrete oversized upload. -/
theorem oversize_leaves_orphan_row_wit :
    ((60 * 1024 * 1024 : Nat) > 50 * 1024 * 1024) ∧
    statusOf (upload_pdf orphanRowWorld).response = 413 ∧
    (upload_pdf orphanRowWorld).rowExists = true ∧
    (upload_pdf orphanRowWorld).storageUploadAttempted = false :=
  ⟨by norm_num, oversize_leaves_orphan_row orphanRowWorld "41" (by decide) rfl (by decide)⟩

/-- C1 counterexample: the storage upload of the original PDF raises and the
response is 500, yet the just-inserted metadata row still exists afterwards: the
compensating delete does not run on upload failure, refuting the claim. -/
theorem storage_fail_keeps_metadata_row :
    statusOf (upload_pdf storageFailWorld).response = 500 ∧
    (upload_pdf storageFailWorld).rowExists = true := by
  decide

/-- C1 (amended): the compensating delete of the metadata row runs only in the
verification stage: when the verification download after a successful store
fails and the delete call succeeds, the handler answers 500 with the
verification body and the metadata row is gone.  When persisting the PDF bytes
itself fails, the metadata row is never deleted: any raised exception other
than a StorageApiError answers 500, a raised StorageApiError answers 413 when
its message indicates an oversized payload and 500 otherwise, and an
error-valued upload result answers 500 (the second os.remove raises out of the
handler). -/
theorem verify_fail_compensating_delete (w : UploadWorld) (pid e : String)
    (hname : pyEndsWithPdf w.filename = true)
    (hins : w.dbInsert = Except.ok pid)
    (hsize : ¬ w.fileSizeBytes > 50 * 1024 * 1024)
    (hst : w.storageUpload = StorageUploadOutcome.ok)
    (hupd : w.dbUpdate = Except.ok ())
    (hdl : w.download = Except.error e)
    (hdel : w.dbDelete = Except.ok ()) :
    ((upload_pdf w).response = Response.httpError 500
      (Detail.verifyError "PDF upload verification failed"
        ("PDF was not uploaded successfully to storage. Error: " ++ e) w.filename) ∧
     (upload_pdf w).rowExists = false) ∧
    (∀ (w2 : UploadWorld) (pid2 m : String),
      pyEndsWithPdf w2.filename = true →
      w2.dbInsert = Except.ok pid2 →
      ¬ w2.fileSizeBytes > 50 * 1024 * 1024 →
      (w2.storageUpload = StorageUploadOutcome.exc m →
        statusOf (upload_pdf w2).response = 500 ∧ (upload_pdf w2).rowExists = true) ∧
      (w2.storageUpload = StorageUploadOutcome.errResult m →
        statusOf (upload_pdf w2).response = 500 ∧ (upload_pdf w2).rowExists = true) ∧
      (w2.storageUpload = StorageUploadOutcome.apiError m →
        statusOf (upload_pdf w2).response = (if storageErrTooLarge m then 413 else 500) ∧
        (upload_pdf w2).rowExists = true)) := by
  constructor
  · have h : upload_pdf w = failResult 500
        (Detail.verifyError "PDF upload verification failed"
          ("PDF was not uploaded successfully to storage. Error: " ++ e) w.filename)
        false true := by
      simp [upload_pdf, hname, hins, hsize, hst, hupd, hdl, hdel]
    rw [h]
    exact ⟨rfl, rfl⟩
  · intro w2 pid2 m hname2 hins2 hsize2
    refine ⟨?_, ?_, ?_⟩
    · intro hst2
      have h : upload_pdf w2 = failResult 500
          (Detail.text ("PDF upload failed: " ++ m)) true true := by
        simp [upload_pdf, hname2, hins2, hsize2, hst2]
      rw [h]
      exact ⟨rfl, rfl⟩
    · intro hst2
      have h : upload_pdf w2 = failResult 500
          (Detail.text "Internal Server Error") true true := by
        simp [upload_pdf, hname2, hins2, hsize2, hst2]
      rw [h]
      exact ⟨rfl, rfl⟩
    · intro hst2
      by_cases htl : storageErrTooLarge m
      · have h : upload_pdf w2 = failResult 413
            (Detail.sizeError (mkSizeDetail "File too large for Supabase storage"
              w2.fileSizeBytes)) true true := by
          simp [upload_pdf, hname2, hins2, hsize2, hst2, htl]
        rw [h, if_pos htl]
        exact ⟨rfl, rfl⟩
      · have h : upload_pdf w2 = failResult 500
            (Detail.text ("Storage error: " ++ m)) true true := by
          simp [upload_pdf, hname2, hins2, hsize2, hst2, htl]
        rw [h, if_neg htl]
        exact ⟨rfl, rfl⟩

/-- C1 witness: concrete runs for the verification-failure compensating delete
and for each storage-persist failure shape. -/
theorem verify_fail_compensating_delete_wit :
    ((upload_pdf verifyFailWorld).response = Response.httpError 500
      (Detail.verifyError "PDF upload verification failed"
        ("PDF was not uploaded successfully to storage. Error: " ++ "object not found")
        "report.pdf") ∧
     (upload_pdf verifyFailWorld).rowExists = false) ∧
    (statusOf (upload_pdf storageFailWorld).response = 500 ∧
      (upload_pdf storageFailWorld).rowExists = true) ∧
    (statusOf (upload_pdf errResultWorld).response = 500 ∧
      (upload_pdf errResultWorld).rowExists = true) ∧
    (statusOf (upload_pdf apiError413World).response =
        (if storageErrTooLarge "StorageApiError: 413 Payload Too Large" then 413 else 500) ∧
      (upload_pdf apiError413World).rowExists = true) :=
  ⟨(verify_fail_compensating_delete verifyFailWorld "41" "object not found"
      (by decide) rfl (by decide) rfl rfl rfl rfl).1,
    ((verify_fail_compensating_delete verifyFailWorld "41" "object not found"
      (by decide) rfl (by decide) rfl rfl rfl rfl).2 storageFailWorld "41"
      "connection reset" (by decide) rfl (by decide)).1 rfl,
    ((verify_fail_compensating_delete verifyFailWorld "41" "object not found"
      (by decide) rfl (by decide) rfl rfl rfl rfl).2 errResultWorld "41"
      "Duplicate object" (by decide) rfl (by decide)).2.1 rfl,
    ((verify_fail_compensating_delete verifyFailWorld "41" "object not found"
      (by decide) rfl (by decide) rfl rfl rfl rfl).2 apiError413World "41"
      "StorageApiError: 413 Payload Too Large" (by decide) rfl (by decide)).2.2 rfl⟩

/-- C2 counterexample: rasterization fails, yet upload_pdf returns the 200
success response with empty artifact lists instead of reporting failure,
refuting the claim that the pipeline aborts. -/
theorem raster_fail_returns_success :
    (upload_pdf rasterFailWorld).response = Response.ok "41" "41/report.pdf" [] [] ∧
    statusOf (upload_pdf rasterFailWorld).response = 200 := by
  decide

/-- C2 (amended): on a rasterization fault the rasterizer returns an empty page
list, so the handler performs zero per-page iterations and attempts no embedding
insert, but it does not abort: it returns the 200 success response with empty
uploaded_images and uploaded_texts rather than reporting failure. -/
theorem raster_fail_empty_success (w : UploadWorld) (pid m : String)
    (hname : pyEndsWithPdf w.filename = true)
    (hins : w.dbInsert = Except.ok pid)
    (hsize : ¬ w.fileSizeBytes > 50 * 1024 * 1024)
    (hst : w.storageUpload = StorageUploadOutcome.ok)
    (hupd : w.dbUpdate = Except.ok ())
    (hdl : w.download = Except.ok ())
    (hr : w.rasterize = PdfRenderOutcome.fault m) :
    (upload_pdf w).response = Response.ok pid (pid ++ "/" ++ w.filename) [] [] ∧
    (upload_pdf w).insertedEmbeddings = [] ∧
    statusOf (upload_pdf w).response = 200 := by
  rw [upload_pdf_success_stage w pid hname hins hsize hst hupd hdl, hr]
  have hc : convert_pdf_to_images ("images/" ++ pid) (PdfRenderOutcome.fault m) = [] := rfl
  rw [hc]
  exact ⟨rfl, rfl, rfl⟩

/-- C2 witness at a concrete rasterization-fault run. -/
theorem raster_fail_empty_success_wit :
    (upload_pdf rasterFailWorld).response = Response.ok "41" ("41" ++ "/" ++ "report.pdf") [] [] ∧
    (upload_pdf rasterFailWorld).insertedEmbeddings = [] ∧
    statusOf (upload_pdf rasterFailWorld).response = 200 :=
  raster_fail_empty_success rasterFailWorld "41" "cannot open document"
    (by decide) rfl (by decide) rfl rfl rfl rfl

/-- C10: every embeddings row attempted during per-page processing carries a
page_number parsed from the text artifact filename, and that parse yields
exactly the 1-based rasterization index of the page; and a text filename that
does not parse still yields an attempted row with page_number none. -/
theorem embedding_page_numbers (w : UploadWorld) (pid : String) (n : Nat)
    (hname : pyEndsWithPdf w.filename = true)
    (hins : w.dbInsert = Except.ok pid)
    (hsize : ¬ w.fileSizeBytes > 50 * 1024 * 1024)
    (hst : w.storageUpload = StorageUploadOutcome.ok)
    (hupd : w.dbUpdate = Except.ok ())
    (hdl : w.download = Except.ok ())
    (hr : w.rasterize = PdfRenderOutcome.pages n) :
    ((upload_pdf w).insertedEmbeddings.length = n ∧
     ∀ i, i < n →
       (upload_pdf w).insertedEmbeddings.getD i ⟨"", none, "", []⟩ =
         { pdf_id := pid, page_number := some (i + 1),
           text := extract_text_from_image (w.ocr i),
           embedding := w.encode (extract_text_from_image (w.ocr i)) } ∧
       parsePageNumber (txtNameOf (pageFilename ("images/" ++ pid) (i + 1))) =
         some (i + 1)) ∧
    (∀ (g : Nat → Nat → AttemptOutcome) (ocr : Nat → OcrOutcome)
        (encode : String → List Int) (pid2 p : String) (i : Nat),
      parsePageNumber (txtNameOf p) = none →
      (processTextsAux g ocr encode pid2 i [p]).2 =
        [{ pdf_id := pid2, page_number := none,
           text := extract_text_from_image (ocr i),
           embedding := encode (extract_text_from_image (ocr i)) }]) := by
  constructor
  · rw [upload_pdf_success_stage w pid hname hins hsize hst hupd hdl, hr]
    have hlen : (convert_pdf_to_images ("images/" ++ pid) (PdfRenderOutcome.pages n)).length
        = n := by simp [convert_pdf_to_images]
    constructor
    · rw [(processTextsAux_records w.txtAttempt w.ocr w.encode pid
        (convert_pdf_to_images ("images/" ++ pid) (PdfRenderOutcome.pages n)) 0).1, hlen]
    · intro i hi
      refine ⟨?_, parsePageNumber_txtName ("images/" ++ pid) (i + 1)⟩
      rw [(processTextsAux_records w.txtAttempt w.ocr w.encode pid
        (convert_pdf_to_images ("images/" ++ pid) (PdfRenderOutcome.pages n)) 0).2 i
        (by rw [hlen]; exact hi)]
      rw [convert_getD ("images/" ++ pid) n i hi, parsePageNumber_txtName]
      simp
  · intro g ocr encode pid2 p i hnone
    have h : (processTextsAux g ocr encode pid2 i [p]).2 =
        [{ pdf_id := pid2, page_number := parsePageNumber (txtNameOf p),
           text := extract_text_from_image (ocr i),
           embedding := encode (extract_text_from_image (ocr i)) }] := rfl
    rw [h, hnone]

/-- C10 witness at a concrete one-page run and a concrete unparseable name. -/
theorem embedding_page_numbers_wit :
    ((upload_pdf baseWorld).insertedEmbeddings.length = 1 ∧
     (upload_pdf baseWorld).insertedEmbeddings.getD 0 ⟨"", none, "", []⟩ =
       { pdf_id := "41", page_number := some 1, text := "hello world",
         embedding := [1] }) ∧
    (processTextsAux (fun _ _ => AttemptOutcome.success) (fun _ => OcrOutcome.annotations [])
      (fun _ => []) "9" 0 ["foo.jpg"]).2 =
      [{ pdf_id := "9", page_number := none, text := "No text found in image",
         embedding := [] }] := by
  refine ⟨⟨?_, ?_⟩, ?_⟩
  · exact (embedding_page_numbers baseWorld "41" 1 (by decide) rfl (by decide)
      rfl rfl rfl rfl).1.1
  · exact ((embedding_page_numbers baseWorld "41" 1 (by decide) rfl (by decide)
      rfl rfl rfl rfl).1.2 0 (by decide)).1
  · exact (embedding_page_numbers baseWorld "41" 1 (by decide) rfl (by decide)
      rfl rfl rfl rfl).2 (fun _ _ => AttemptOutcome.success)
      (fun _ => OcrOutcome.annotations []) (fun _ => []) "9" "foo.jpg" 0 (by decide)
